import Mathlib

/-!
# aeonian: deployment pipeline of `src/index.js`

A shallow embedding of the deployment module.  Every exported function of
`index.js` is a definition of the same name.  The asynchronous callback chain
is embedded in continuation style: a callback `() => { ... }` becomes the `Run`
of what the callback does, a callback taking the listed buckets becomes a
function into `Run`.  A `Run` records the remote operations in the order they
are issued and how the run ended.  The answers of the storage service and of
the CDN are inputs, collected in `World`.  The spinner (`next`, `succeed`,
`info`) only displays progress and is left out, except for the message given
to `error`.
-/

set_option maxHeartbeats 1600000

namespace Aeonian

/-! ## JavaScript strings, objects and errors -/

namespace JS

/-- The result of `s.replace(pat, rep)` on character lists, for a string
pattern: the first occurrence of `pat`, scanning from the left, is replaced by
`rep`; without an occurrence the input is returned. -/
def replaceChars (pat rep : List Char) : List Char → List Char
  | [] => if pat.isPrefixOf [] then rep else []
  | c :: cs =>
    if pat.isPrefixOf (c :: cs) then rep ++ (c :: cs).drop pat.length
    else c :: replaceChars pat rep cs

/-- `String.prototype.replace` with a string pattern and a replacement without
`$` patterns. -/
def replace (s pat rep : String) : String :=
  ⟨replaceChars pat.data rep.data s.data⟩

/-- `Array.prototype.indexOf` on an array of strings: the first index holding
the element, or `-1`. -/
def indexOf : List String → String → Int
  | [], _ => -1
  | x :: xs, a =>
    if x = a then 0
    else if indexOf xs a = -1 then -1 else indexOf xs a + 1

/-- The property names every object created by an object literal inherits from
`Object.prototype`. -/
def objectPrototypeKeys : List String :=
  ["constructor", "__defineGetter__", "__defineSetter__", "hasOwnProperty",
   "__lookupGetter__", "__lookupSetter__", "isPrototypeOf",
   "propertyIsEnumerable", "toString", "valueOf", "__proto__", "toLocaleString"]

/-- A plain object with string values, as its own properties in insertion
order; its prototype is `Object.prototype`. -/
abbrev Obj := List (String × String)

/-- The value read from a property of an `Obj`. -/
inductive Value where
  | str (s : String)
  | builtin (key : String)
  | undefined
  deriving DecidableEq, Repr

/-- The own property names of an object. -/
def ownKeys (o : Obj) : List String := o.map Prod.fst

/-- The JavaScript operator `key in o`: own properties and the ones inherited
through the prototype chain. -/
def hasProperty (key : String) (o : Obj) : Bool :=
  decide (key ∈ ownKeys o) || decide (key ∈ objectPrototypeKeys)

/-- The property read `o[key]`. -/
def get (o : Obj) (key : String) : Value :=
  match o.lookup key with
  | some v => .str v
  | none => if key ∈ objectPrototypeKeys then .builtin key else .undefined

/-- The assignment `o[key] = v` of a string on an object whose prototype is
`Object.prototype`: an existing own property keeps its place, a new one is
added last.  On the key `__proto__` without an own property of that name the
assignment reaches the setter inherited from `Object.prototype`, which ignores
a string and creates no own property. -/
def set (key v : String) : Obj → Obj
  | [] => if key = "__proto__" then [] else [(key, v)]
  | (k, w) :: rest => if k = key then (k, v) :: rest else (k, w) :: set key v rest

/-- `Object.assign(target, source)`: every own property of the source is
assigned on the target. -/
def assign (target source : Obj) : Obj :=
  source.foldl (fun t kv => set kv.1 kv.2 t) target

/-- An error object handed to a callback by a client library. -/
structure Error where
  name : String
  message : String
  stack : String
  deriving DecidableEq, Repr

/-- `Error.prototype.toString`, which string concatenation with an error
object uses. -/
def Error.toString (e : Error) : String :=
  if e.name = "" then e.message
  else if e.message = "" then e.name
  else e.name ++ ": " ++ e.message

/-- A value a configuration can hold where a string is expected: `null`,
`undefined`, a string, or any other value, given by the string `text` that
concatenation with a string converts it to. -/
inductive Scalar where
  | null
  | undefined
  | str (s : String)
  | other (text : String)
  deriving DecidableEq, Repr

/-- The string a value is converted to when it is concatenated with a
string. -/
def Scalar.toStr : Scalar → String
  | .null => "null"
  | .undefined => "undefined"
  | .str s => s
  | .other text => text

/-- The concatenation `v + s` of a value and a string. -/
def concat (v : Scalar) (s : String) : String :=
  v.toStr ++ s

end JS

/-! ## The module state `defaults` and `config` -/

/-- The object `defaults.bucket`; `bucketPrefix` is its property `prefix`. -/
structure BucketDefaults where
  localDir : String
  bucketPrefix : JS.Scalar
  deriving DecidableEq, Repr

/-- The object `defaults.website`. -/
structure WebsiteDefaults where
  index : String
  error : String
  deriving DecidableEq, Repr

/-- The module-level object `defaults`. -/
structure Defaults where
  bucket : BucketDefaults
  website : WebsiteDefaults
  environments : JS.Obj
  deriving DecidableEq, Repr

/-- The value of `defaults` when the module is loaded. -/
def defaults : Defaults :=
  { bucket := { localDir := "./dist/", bucketPrefix := .null }
    website := { index := "index.html", error := "error/index.html" }
    environments := [] }

/-- The property `bucket` of a configuration: an absent key is `none`; a
present `prefix` holds any value. -/
structure BucketCfg where
  localDir : Option String
  bucketPrefix : Option JS.Scalar
  deriving DecidableEq, Repr

/-- The property `website` of a configuration. -/
structure WebsiteCfg where
  index : Option String
  error : Option String
  deriving DecidableEq, Repr

/-- The argument of `config`; an absent property is `none`. -/
structure Cfg where
  bucket : Option BucketCfg
  website : Option WebsiteCfg
  environments : Option JS.Obj
  deriving DecidableEq, Repr

/-- `Object.assign(defaults.bucket, cfg.bucket)`. -/
def assignBucket (t : BucketDefaults) (s : BucketCfg) : BucketDefaults :=
  { localDir := s.localDir.getD t.localDir
    bucketPrefix := s.bucketPrefix.getD t.bucketPrefix }

/-- `Object.assign(defaults.website, cfg.website)`. -/
def assignWebsite (t : WebsiteDefaults) (s : WebsiteCfg) : WebsiteDefaults :=
  { index := s.index.getD t.index
    error := s.error.getD t.error }

/-- The three `Object.assign` steps at the start of `config`. -/
def merge (d : Defaults) (cfg : Cfg) : Defaults :=
  let d1 := match cfg.bucket with
    | some b => { d with bucket := assignBucket d.bucket b }
    | none => d
  let d2 := match cfg.website with
    | some s => { d1 with website := assignWebsite d1.website s }
    | none => d1
  match cfg.environments with
  | some e => { d2 with environments := JS.assign d2.environments e }
  | none => d2

/-- The message `config` gives to `error` when the prefix is `null`. -/
def missingPrefixMessage : String :=
  "You need to specify a bucket prefix; bucket: \x7b prefix: 'myproj-' \x7d"

/-- The function `exports.config`, on the current `defaults`: the message given
to `error` (the process exits there), or the `defaults` it leaves behind. -/
def config (d : Defaults) (cfg : Cfg) : Except String Defaults :=
  let d1 := merge d cfg
  if d1.bucket.bucketPrefix = .null then .error missingPrefixMessage
  else .ok d1

/-! ## Remote operations, their answers, and runs -/

/-- One element of `data.Buckets` in the answer of `s3.listBuckets`. -/
structure BucketEntry where
  Name : String
  CreationDate : String
  deriving DecidableEq, Repr

/-- One element of `Origins.Items`; `other` holds the fields the module never
touches. -/
structure Origin where
  DomainName : String
  other : JS.Obj
  deriving DecidableEq, Repr

/-- The property `Origins` of a distribution configuration. -/
structure Origins where
  Quantity : Nat
  Items : List Origin
  deriving DecidableEq, Repr

/-- The answer `data` of `cloudfront.getDistributionConfig`; `other` holds the
fields the module never touches. -/
structure DistributionData where
  ETag : String
  Origins : Origins
  other : JS.Obj
  deriving DecidableEq, Repr

/-- The object handed to `cloudfront.updateDistribution`. -/
structure UpdateParams where
  Id : JS.Value
  IfMatch : String
  Origins : Origins
  other : JS.Obj
  deriving DecidableEq, Repr

/-- The object handed to `client.uploadDir`. -/
structure UploadParams where
  localDir : String
  deleteRemoved : Bool
  Bucket : String
  ACL : String
  deriving DecidableEq, Repr

/-- The object handed to `s3.putBucketWebsite`. -/
structure WebsiteParams where
  Bucket : String
  IndexDocumentSuffix : String
  ErrorDocumentKey : String
  deriving DecidableEq, Repr

/-- The object handed to `cloudfront.createInvalidation`. -/
structure InvalidationParams where
  DistributionId : JS.Value
  CallerReference : String
  Quantity : Nat
  Items : List String
  deriving DecidableEq, Repr

/-- The calls the module issues to the storage client, the CDN client and the
timer. -/
inductive Op where
  | listBuckets
  | deleteDir (Bucket : String)
  | deleteBucket (Bucket : String)
  | createBucket (Bucket : String)
  | uploadDir (params : UploadParams)
  | putBucketWebsite (params : WebsiteParams)
  | getDistributionConfig (Id : JS.Value)
  | updateDistribution (params : UpdateParams)
  | setTimeout (ms : Nat)
  | createInvalidation (params : InvalidationParams)
  deriving DecidableEq, Repr

/-- What the remote services answer during one run: `none` is success, an
error is the error the callback or the emitter receives.  `now` is the clock
read by `new Date().valueOf()`. -/
structure World where
  listBuckets : Except JS.Error (List BucketEntry)
  deleteDir : String → Option JS.Error
  deleteBucket : String → Option JS.Error
  createBucket : String → Option JS.Error
  uploadDir : UploadParams → Option JS.Error
  putBucketWebsite : WebsiteParams → Option JS.Error
  getDistributionConfig : JS.Value → Except JS.Error DistributionData
  updateDistribution : UpdateParams → Option JS.Error
  createInvalidation : InvalidationParams → Option JS.Error
  now : Nat

/-- How a run ends.  `complete`: the last callback of `process` ran.
`failed`: `error` was called with the message.  `unhandled`: an emitter with no
`'error'` listener emitted `'error'`, so neither `error` nor the completion
callback is ever called.  `typeError`: a callback read a property of
`undefined`. -/
inductive Outcome where
  | complete
  | failed (message : String)
  | unhandled (e : JS.Error)
  | typeError
  deriving DecidableEq, Repr

/-- A run: the operations issued, in order, and how the run ended. -/
structure Run where
  trace : List Op
  outcome : Outcome
  deriving DecidableEq, Repr

/-- The operation `op` is issued and the run goes on as `r`. -/
def Run.after (op : Op) (r : Run) : Run :=
  { trace := op :: r.trace, outcome := r.outcome }

/-! ## The exported functions -/

/-- The function `exports.error`: it declares the one parameter `message`, so
further arguments of a call (`rest`) are dropped; `process.exit()` ends the
run. -/
def error (message : String) (_rest : List String) : Run :=
  { trace := [], outcome := .failed message }

/-- The website endpoint suffix written out in `deploy` and twice in
`updateCloudFrontOrigin`. -/
def websiteSuffix : String := ".s3-website-eu-west-1.amazonaws.com"

/-- The function `exports.listBuckets`. -/
def listBuckets (w : World) (complete : List String → Run) : Run :=
  Run.after .listBuckets <|
    match w.listBuckets with
    | .error e => error ("s3.listBuckets() Error: " ++ e.toString) []
    | .ok data => complete (data.map BucketEntry.Name)

/-- The function `exports.emptyBucket`: only an `'end'` listener is
registered on the deleter. -/
def emptyBucket (w : World) (bucket : String) (complete : Run) : Run :=
  Run.after (.deleteDir bucket) <|
    match w.deleteDir bucket with
    | none => complete
    | some e => { trace := [], outcome := .unhandled e }

/-- The function `exports.deleteBucket`. -/
def deleteBucket (w : World) (bucket : String) (complete : Run) : Run :=
  Run.after (.deleteBucket bucket) <|
    match w.deleteBucket bucket with
    | some e => error ("s3.deleteBucket() Error:" ++ e.toString) []
    | none => complete

/-- The function `exports.destroyBucket`. -/
def destroyBucket (w : World) (bucket : String) (complete : Run) : Run :=
  emptyBucket w bucket (deleteBucket w bucket complete)

/-- The function `exports.createBucket`. -/
def createBucket (w : World) (bucket : String) (complete : Run) : Run :=
  Run.after (.createBucket bucket) <|
    match w.createBucket bucket with
    | some e => error ("s3.createbucket() Error:" ++ e.toString) []
    | none => complete

/-- The function `exports.uploadToBucket`. -/
def uploadToBucket (d : Defaults) (w : World) (bucket : String) (complete : Run) : Run :=
  let params : UploadParams :=
    { localDir := d.bucket.localDir, deleteRemoved := true, Bucket := bucket,
      ACL := "public-read" }
  Run.after (.uploadDir params) <|
    match w.uploadDir params with
    | some e => error "unable to sync:" [e.stack]
    | none => complete

/-- The function `exports.makeBucketWebsite`. -/
def makeBucketWebsite (d : Defaults) (w : World) (bucket : String) (complete : Run) : Run :=
  let params : WebsiteParams :=
    { Bucket := bucket, IndexDocumentSuffix := d.website.index,
      ErrorDocumentKey := d.website.error }
  Run.after (.putBucketWebsite params) <|
    match w.putBucketWebsite params with
    | some e => error ("s3.putBucketWebsite() Error: " ++ e.toString) []
    | none => complete

/-- The function `exports.updateCloudFrontOrigin`. -/
def updateCloudFrontOrigin (w : World) (id : JS.Value) (domain : String)
    (_environment : String) (complete : Run) : Run :=
  Run.after (.getDistributionConfig id) <|
    match w.getDistributionConfig id with
    | .error e => error ("cf.getDistributionConfig Error " ++ e.toString) []
    | .ok data =>
      match data.Origins.Items with
      | [] => { trace := [], outcome := .typeError }
      | item0 :: items =>
        let previous := JS.replace item0.DomainName ".s3-website-eu-west-1.amazonaws.com" ""
        let current := JS.replace domain ".s3-website-eu-west-1.amazonaws.com" ""
        let updateParams : UpdateParams :=
          { Id := id, IfMatch := data.ETag,
            Origins := { data.Origins with
              Items := { item0 with DomainName := domain } :: items },
            other := data.other }
        Run.after (.updateDistribution updateParams) <|
          match w.updateDistribution updateParams with
          | some terror => error ("cf.updateDistribution Error" ++ terror.toString) []
          | none =>
            if current ≠ previous then destroyBucket w previous complete
            else complete

/-- The function `exports.invalidate`. -/
def invalidate (w : World) (_environment : String) (Id : JS.Value) (complete : Run) : Run :=
  let params : InvalidationParams :=
    { DistributionId := Id, CallerReference := toString w.now,
      Quantity := 1, Items := ["/*"] }
  Run.after (.createInvalidation params) <|
    match w.createInvalidation params with
    | some e => error ("cloudfront.createInvalidation() Error: " ++ e.toString) []
    | none => complete

/-- The function `exports.process`; its last callback ends the run with
`process.exit()`. -/
def process (d : Defaults) (w : World) (bucket domain environment : String) : Run :=
  uploadToBucket d w bucket <|
    makeBucketWebsite d w bucket <|
      updateCloudFrontOrigin w (JS.get d.environments environment) domain environment <|
        Run.after (.setTimeout 1000) <|
          invalidate w environment (JS.get d.environments environment)
            { trace := [], outcome := .complete }

/-- The function `exports.deploy`, on the `defaults` left by `config`. -/
def deploy (d : Defaults) (w : World) (environment : String) : Run :=
  if !JS.hasProperty environment d.environments then
    error ("Environment \"" ++ environment ++ "\" was not found in the config you passed") []
  else
    let bucket := JS.concat d.bucket.bucketPrefix environment
    let domain := bucket ++ ".s3-website-eu-west-1.amazonaws.com"
    listBuckets w fun buckets =>
      if JS.indexOf buckets bucket ≠ -1 then
        emptyBucket w bucket (process d w bucket domain environment)
      else
        createBucket w bucket (process d w bucket domain environment)

/-! ## Phases of a run, read off its trace -/

/-- The operation is the directory sync `client.uploadDir`. -/
def Op.isUploadDir : Op → Bool
  | .uploadDir _ => true
  | _ => false

/-- The operation is `cloudfront.updateDistribution`. -/
def Op.isUpdateDistribution : Op → Bool
  | .updateDistribution _ => true
  | _ => false

/-- The operation is `client.deleteDir`, issued by `emptyBucket`. -/
def Op.isDeleteDir : Op → Bool
  | .deleteDir _ => true
  | _ => false

/-- The operation is `s3.deleteBucket`. -/
def Op.isDeleteBucket : Op → Bool
  | .deleteBucket _ => true
  | _ => false

/-- The operation is `s3.createBucket`. -/
def Op.isCreateBucket : Op → Bool
  | .createBucket _ => true
  | _ => false

/-- The operations of a run issued before the directory sync starts: the
listing of the buckets and the provisioning of the new bucket. -/
def provisionSegment (r : Run) : List Op :=
  r.trace.takeWhile fun op => !op.isUploadDir

/-- The operations of a run issued after `cloudfront.updateDistribution`. -/
def afterUpdate (r : Run) : List Op :=
  (r.trace.dropWhile fun op => !op.isUpdateDistribution).drop 1

/-- The answer of the world to an operation is an error. -/
def World.answersError (w : World) : Op → Bool
  | .listBuckets => match w.listBuckets with
    | .error _ => true
    | .ok _ => false
  | .deleteDir b => (w.deleteDir b).isSome
  | .deleteBucket b => (w.deleteBucket b).isSome
  | .createBucket b => (w.createBucket b).isSome
  | .uploadDir p => (w.uploadDir p).isSome
  | .putBucketWebsite p => (w.putBucketWebsite p).isSome
  | .getDistributionConfig i => match w.getDistributionConfig i with
    | .error _ => true
    | .ok _ => false
  | .updateDistribution p => (w.updateDistribution p).isSome
  | .setTimeout _ => false
  | .createInvalidation p => (w.createInvalidation p).isSome

/-- Every remote operation succeeds; the bucket listing answers `buckets` and
the fetch of the distribution `id` answers `data`. -/
structure World.AllSucceed (w : World) (buckets : List BucketEntry) (id : JS.Value)
    (data : DistributionData) : Prop where
  listBuckets : w.listBuckets = .ok buckets
  deleteDir : ∀ b, w.deleteDir b = none
  deleteBucket : ∀ b, w.deleteBucket b = none
  createBucket : ∀ b, w.createBucket b = none
  uploadDir : ∀ p, w.uploadDir p = none
  putBucketWebsite : ∀ p, w.putBucketWebsite p = none
  getDistributionConfig : w.getDistributionConfig id = .ok data
  updateDistribution : ∀ p, w.updateDistribution p = none
  createInvalidation : ∀ p, w.createInvalidation p = none

/-- The value of the property `prefix` a configuration carries: `none` when
`bucket` is absent or has no property `prefix`. -/
def Cfg.suppliedPrefix (cfg : Cfg) : Option JS.Scalar :=
  match cfg.bucket with
  | none => none
  | some b => b.bucketPrefix

/-! ## Concrete configurations and worlds -/

/-- The `defaults` after `config` with prefix `proj-` and the environment
`staging` of distribution `DIST123`. -/
def exampleDefaults : Defaults :=
  { defaults with
    bucket := { localDir := "./dist/", bucketPrefix := .str "proj-" }
    environments := [("staging", "DIST123")] }

/-- As `exampleDefaults`, with a prefix that holds the website suffix. -/
def suffixedDefaults : Defaults :=
  { defaults with
    bucket := { localDir := "./dist/",
                bucketPrefix := .str "a.s3-website-eu-west-1.amazonaws.com-" }
    environments := [("staging", "DIST123")] }

/-- A world where every operation succeeds: the storage service lists the
buckets `names`, and origin 0 of every distribution is `origin`. -/
def calmWorld (names : List String) (origin : String) : World :=
  { listBuckets := .ok (names.map fun n => { Name := n, CreationDate := "2017-01-01" })
    deleteDir := fun _ => none
    deleteBucket := fun _ => none
    createBucket := fun _ => none
    uploadDir := fun _ => none
    putBucketWebsite := fun _ => none
    getDistributionConfig := fun _ =>
      .ok { ETag := "E2QWRUHAPOMQZL",
            Origins := { Quantity := 1, Items := [{ DomainName := origin, other := [] }] },
            other := [("CallerReference", "site")] }
    updateDistribution := fun _ => none
    createInvalidation := fun _ => none
    now := 1500000000000 }

/-- An error as a client library reports it. -/
def sampleError : JS.Error :=
  { name := "NetworkingError", message := "socket hang up",
    stack := "NetworkingError: socket hang up at TLSSocket.onHangUp" }

/-! ## Lemmas on the JavaScript primitives -/

theorem JS.indexOf_nonneg_or (xs : List String) (a : String) :
    JS.indexOf xs a = -1 ∨ 0 ≤ JS.indexOf xs a := by
  induction xs with
  | nil => left; rfl
  | cons x xs ih =>
    unfold JS.indexOf
    by_cases h : x = a
    · right; simp [h]
    · simp only [h, if_false]
      rcases ih with h1 | h1
      · left; simp [h1]
      · right
        split
        · omega
        · omega

/-- The test `buckets.indexOf(bucket) !== -1` is membership. -/
theorem JS.indexOf_ne_neg_one_iff (xs : List String) (a : String) :
    JS.indexOf xs a ≠ -1 ↔ a ∈ xs := by
  induction xs with
  | nil => simp [JS.indexOf]
  | cons x xs ih =>
    unfold JS.indexOf
    by_cases h : x = a
    · simp [h]
    · have hne : a ≠ x := fun e => h e.symm
      simp only [h, if_false, List.mem_cons, hne, false_or]
      rw [← ih]
      rcases JS.indexOf_nonneg_or xs a with h1 | h1
      · simp [h1]
      · have h2 : JS.indexOf xs a ≠ -1 := by omega
        simp only [h2, if_false]
        constructor
        · intro _; exact h2
        · intro _; omega

theorem JS.replaceChars_of_isPrefixOf (pat rep s : List Char)
    (h : pat.isPrefixOf s = true) :
    JS.replaceChars pat rep s = rep ++ s.drop pat.length := by
  cases s with
  | nil =>
    have hp : pat = [] := by
      cases pat with
      | nil => rfl
      | cons p ps => simp [List.isPrefixOf] at h
    subst hp
    simp [JS.replaceChars]
  | cons c cs => simp [JS.replaceChars, h]

theorem JS.replaceChars_cons_of_not_isPrefixOf (pat rep : List Char) (c : Char)
    (cs : List Char) (h : pat.isPrefixOf (c :: cs) = false) :
    JS.replaceChars pat rep (c :: cs) = c :: JS.replaceChars pat rep cs := by
  simp [JS.replaceChars, h]

/-- No proper non-empty end of the website suffix is a beginning of it. -/
theorem websiteSuffix_unbordered :
    ∀ k < 35, 0 < k → (websiteSuffix.data.drop k).isPrefixOf websiteSuffix.data = false := by
  decide

theorem websiteSuffix_length : websiteSuffix.data.length = 35 := by decide

/-- Stripping the website suffix from `b ++ suffix` gives `b` back when `b`
holds no occurrence of the suffix. -/
theorem replaceChars_append_suffix (b : List Char)
    (hfree : ¬ websiteSuffix.data <:+: b) :
    JS.replaceChars websiteSuffix.data [] (b ++ websiteSuffix.data) = b := by
  induction b with
  | nil =>
    rw [List.nil_append, JS.replaceChars_of_isPrefixOf _ _ _ (by simp)]
    simp
  | cons c b ih =>
    have hfree2 : ¬ websiteSuffix.data <:+: b := fun h =>
      hfree (h.trans (List.suffix_cons c b).isInfix)
    have hnp : websiteSuffix.data.isPrefixOf (c :: (b ++ websiteSuffix.data)) = false := by
      by_contra hp
      rw [Bool.not_eq_false, List.isPrefixOf_iff_prefix, ← List.cons_append] at hp
      have hself : (c :: b) <+: ((c :: b) ++ websiteSuffix.data) := List.prefix_append _ _
      by_cases hlen : websiteSuffix.data.length ≤ (c :: b).length
      · exact hfree (List.prefix_of_prefix_length_le hp hself hlen).isInfix
      · have hlt : (c :: b).length < 35 := by
          rw [websiteSuffix_length] at hlen; omega
        have hcb : (c :: b) <+: websiteSuffix.data :=
          List.prefix_of_prefix_length_le hself hp (by rw [websiteSuffix_length]; omega)
        have htake : c :: b = websiteSuffix.data.take (c :: b).length :=
          List.prefix_iff_eq_take.mp hcb
        have hsplit : websiteSuffix.data =
            (c :: b) ++ websiteSuffix.data.drop (c :: b).length := by
          conv_lhs => rw [← List.take_append_drop (c :: b).length websiteSuffix.data]
          rw [← htake]
        have hp2 : (c :: b) ++ websiteSuffix.data.drop (c :: b).length
            <+: (c :: b) ++ websiteSuffix.data := by
          rw [← hsplit]; exact hp
        rw [List.prefix_append_right_inj] at hp2
        have hnb := websiteSuffix_unbordered (c :: b).length hlt (by simp)
        rw [← List.isPrefixOf_iff_prefix] at hp2
        rw [hp2] at hnb
        cases hnb
    rw [List.cons_append, JS.replaceChars_cons_of_not_isPrefixOf _ _ _ _ hnp, ih hfree2]

/-- The string form of `replaceChars_append_suffix`. -/
theorem replace_append_suffix (b : String)
    (hfree : ¬ websiteSuffix.data <:+: b.data) :
    JS.replace (b ++ ".s3-website-eu-west-1.amazonaws.com")
      ".s3-website-eu-west-1.amazonaws.com" "" = b := by
  have h := replaceChars_append_suffix b.data hfree
  unfold JS.replace
  rw [String.data_append]
  show String.mk (JS.replaceChars websiteSuffix.data [] (b.data ++ websiteSuffix.data)) = b
  rw [h]

theorem JS.mem_ownKeys_of_lookup (o : JS.Obj) (k v : String)
    (h : o.lookup k = some v) : k ∈ JS.ownKeys o := by
  induction o with
  | nil => simp [List.lookup] at h
  | cons kv rest ih =>
    obtain ⟨k1, v1⟩ := kv
    by_cases hk : k = k1
    · simp [JS.ownKeys, hk]
    · have hb : (k == k1) = false := by simpa using hk
      simp only [List.lookup, hb] at h
      have := ih h
      simp only [JS.ownKeys, List.map_cons, List.mem_cons] at this ⊢
      right; exact this

/-! ## Lemmas on runs -/

/-- An environment name the `in` test rejects ends the run in `error` before
any operation is issued. -/
theorem deploy_of_not_hasProperty (d : Defaults) (w : World) (environment : String)
    (h : JS.hasProperty environment d.environments = false) :
    deploy d w environment =
      { trace := [],
        outcome := .failed
          ("Environment \"" ++ environment ++ "\" was not found in the config you passed") } := by
  simp [deploy, h, error]

/-- No operation is issued after one that answered with an error, whatever the
world answers. -/
theorem deploy_stops_at_first_error (d : Defaults) (w : World) (environment : String) :
    ∀ op ∈ (deploy d w environment).trace.dropLast, w.answersError op = false := by
  by_cases hin : JS.hasProperty environment d.environments = true
  · simp only [deploy, hin, Bool.not_true,
      Bool.false_eq_true, if_false, listBuckets,
      JS.indexOf_ne_neg_one_iff, emptyBucket, createBucket,
      process, uploadToBucket, makeBucketWebsite,
      updateCloudFrontOrigin,
      destroyBucket, deleteBucket, invalidate, error,
      Run.after, websiteSuffix]
    generalize JS.concat d.bucket.bucketPrefix environment = bucket
    generalize JS.get d.environments environment = id
    repeat' split
    all_goals simp_all [World.answersError, List.dropLast]
  · simp [deploy, hin, error]

/-- A run that completes met no error. -/
theorem deploy_complete_no_error (d : Defaults) (w : World) (environment : String) :
    (deploy d w environment).outcome = .complete →
      ∀ op ∈ (deploy d w environment).trace, w.answersError op = false := by
  by_cases hin : JS.hasProperty environment d.environments = true
  · simp only [deploy, hin, Bool.not_true,
      Bool.false_eq_true, if_false, listBuckets,
      JS.indexOf_ne_neg_one_iff, emptyBucket, createBucket,
      process, uploadToBucket, makeBucketWebsite,
      updateCloudFrontOrigin,
      destroyBucket, deleteBucket, invalidate, error,
      Run.after, websiteSuffix]
    generalize JS.concat d.bucket.bucketPrefix environment = bucket
    generalize JS.get d.environments environment = id
    repeat' split
    all_goals simp_all [World.answersError]
  · simp [deploy, hin, error]

/-- When the name of the new bucket holds no occurrence of the website suffix,
`s3.deleteBucket` is never issued on it. -/
theorem deploy_keeps_new_bucket (d : Defaults) (w : World) (environment pre : String)
    (hpre : d.bucket.bucketPrefix = .str pre)
    (hfree : ¬ websiteSuffix.data <:+: (pre ++ environment).data) :
    Op.deleteBucket (pre ++ environment) ∉ (deploy d w environment).trace := by
  have hcur := replace_append_suffix (pre ++ environment) hfree
  by_cases hin : JS.hasProperty environment d.environments = true
  · simp only [deploy, hin, Bool.not_true,
      Bool.false_eq_true, if_false, hpre, JS.concat, JS.Scalar.toStr, listBuckets,
      JS.indexOf_ne_neg_one_iff, emptyBucket, createBucket,
      process, uploadToBucket, makeBucketWebsite,
      updateCloudFrontOrigin, hcur,
      destroyBucket, deleteBucket, invalidate, error,
      Run.after, websiteSuffix]
    repeat' split
    all_goals simp_all
  · simp [deploy, hin, error]

/-- A run whose last operation answered with an error ends in `error`, except
for `client.deleteDir`, whose error no listener receives. -/
theorem deploy_failure_outcome (d : Defaults) (w : World) (environment : String) (op : Op)
    (hlast : (deploy d w environment).trace.getLast? = some op)
    (herr : w.answersError op = true) :
    (op.isDeleteDir = true → ∃ e, (deploy d w environment).outcome = .unhandled e) ∧
    (op.isDeleteDir = false → ∃ m, (deploy d w environment).outcome = .failed m) := by
  revert hlast herr
  by_cases hin : JS.hasProperty environment d.environments = true
  · simp only [deploy, hin, Bool.not_true,
      Bool.false_eq_true, if_false, listBuckets,
      JS.indexOf_ne_neg_one_iff, emptyBucket, createBucket,
      process, uploadToBucket, makeBucketWebsite,
      updateCloudFrontOrigin,
      destroyBucket, deleteBucket, invalidate, error,
      Run.after, websiteSuffix]
    generalize JS.concat d.bucket.bucketPrefix environment = bucket
    generalize JS.get d.environments environment = id
    repeat' split
    all_goals
      intro hlast herr
      simp only [List.getLast?, List.getLast, Option.some.injEq] at hlast
      subst hlast
      simp_all [World.answersError, Op.isDeleteDir]
  · simp [deploy, hin, error]

/-- Whatever the world answers, `createInvalidation` is the last operation of
a run that issues it, the settle wait is the one before it, and
`updateDistribution` was issued before the wait. -/
theorem invalidate_after_update_and_settle (d : Defaults) (w : World)
    (environment : String) (p : InvalidationParams)
    (h : Op.createInvalidation p ∈ (deploy d w environment).trace) :
    (deploy d w environment).trace.getLast? = some (Op.createInvalidation p) ∧
    (deploy d w environment).trace.dropLast.getLast? = some (Op.setTimeout 1000) ∧
    (deploy d w environment).trace.dropLast.dropLast.any Op.isUpdateDistribution = true := by
  revert h
  by_cases hin : JS.hasProperty environment d.environments = true
  · simp only [deploy, hin, Bool.not_true,
      Bool.false_eq_true, if_false, listBuckets,
      JS.indexOf_ne_neg_one_iff, emptyBucket, createBucket,
      process, uploadToBucket, makeBucketWebsite,
      updateCloudFrontOrigin,
      destroyBucket, deleteBucket, invalidate, error,
      Run.after, websiteSuffix]
    generalize JS.concat d.bucket.bucketPrefix environment = bucket
    generalize JS.get d.environments environment = id
    repeat' split
    all_goals
      intro h
      simp_all [List.getLast?, List.dropLast, Op.isUpdateDistribution]
  · simp [deploy, hin, error]

/-- When every remote operation succeeds, the run completes and its trace is
the full pipeline; the previous bucket is destroyed exactly when the test
`current !== previous` of `updateCloudFrontOrigin` holds. -/
theorem deploy_success_run (d : Defaults) (w : World) (environment pre id : String)
    (buckets : List BucketEntry) (data : DistributionData) (item0 : Origin)
    (items : List Origin)
    (hpre : d.bucket.bucketPrefix = .str pre)
    (hid : d.environments.lookup environment = some id)
    (hitems : data.Origins.Items = item0 :: items)
    (hw : w.AllSucceed buckets (.str id) data) :
    deploy d w environment =
      { trace :=
          [Op.listBuckets,
           if pre ++ environment ∈ buckets.map BucketEntry.Name
             then Op.deleteDir (pre ++ environment)
             else Op.createBucket (pre ++ environment),
           Op.uploadDir { localDir := d.bucket.localDir, deleteRemoved := true,
                          Bucket := pre ++ environment, ACL := "public-read" },
           Op.putBucketWebsite { Bucket := pre ++ environment,
                                 IndexDocumentSuffix := d.website.index,
                                 ErrorDocumentKey := d.website.error },
           Op.getDistributionConfig (.str id),
           Op.updateDistribution
             { Id := .str id, IfMatch := data.ETag,
               Origins := { Quantity := data.Origins.Quantity,
                            Items := { DomainName := pre ++ environment ++ websiteSuffix,
                                       other := item0.other } :: items },
               other := data.other }]
          ++ (if JS.replace (pre ++ environment ++ websiteSuffix) websiteSuffix ""
                ≠ JS.replace item0.DomainName websiteSuffix ""
              then [Op.deleteDir (JS.replace item0.DomainName websiteSuffix ""),
                    Op.deleteBucket (JS.replace item0.DomainName websiteSuffix "")]
              else [])
          ++ [Op.setTimeout 1000,
              Op.createInvalidation { DistributionId := .str id,
                                      CallerReference := toString w.now,
                                      Quantity := 1, Items := ["/*"] }],
        outcome := .complete } := by
  have hmem : environment ∈ JS.ownKeys d.environments :=
    JS.mem_ownKeys_of_lookup _ _ _ hid
  have hget : JS.get d.environments environment = .str id := by
    simp [JS.get, hid]
  simp only [deploy, JS.hasProperty, hmem, decide_True, Bool.true_or, Bool.not_true,
    Bool.false_eq_true, if_false, hpre, JS.concat, JS.Scalar.toStr, listBuckets, hw.listBuckets,
    JS.indexOf_ne_neg_one_iff, emptyBucket, createBucket, hw.deleteDir, hw.createBucket,
    process, uploadToBucket, hw.uploadDir, makeBucketWebsite, hw.putBucketWebsite,
    updateCloudFrontOrigin, hget, hw.getDistributionConfig, hitems, hw.updateDistribution,
    destroyBucket, deleteBucket, hw.deleteBucket, invalidate, hw.createInvalidation,
    Run.after, websiteSuffix]
  split <;> split <;> simp

/-! ## The claims -/

/-- C1, at a failing input.  The prefix holds the website suffix and origin 0
of the distribution is `a.s3-website-eu-west-1.amazonaws.com` followed by
`.s3-website-eu-west-1.amazonaws.com-staging`: the run creates the bucket
`a.s3-website-eu-west-1.amazonaws.com-staging`, repoints origin 0 to it, and
then empties and deletes that same bucket. -/
theorem deploy_destroys_new_bucket :
    deploy suffixedDefaults
        (calmWorld []
          "a.s3-website-eu-west-1.amazonaws.com.s3-website-eu-west-1.amazonaws.com-staging")
        "staging" =
      { trace :=
          [Op.listBuckets,
           Op.createBucket "a.s3-website-eu-west-1.amazonaws.com-staging",
           Op.uploadDir { localDir := "./dist/", deleteRemoved := true,
                          Bucket := "a.s3-website-eu-west-1.amazonaws.com-staging",
                          ACL := "public-read" },
           Op.putBucketWebsite { Bucket := "a.s3-website-eu-west-1.amazonaws.com-staging",
                                 IndexDocumentSuffix := "index.html",
                                 ErrorDocumentKey := "error/index.html" },
           Op.getDistributionConfig (.str "DIST123"),
           Op.updateDistribution
             { Id := .str "DIST123", IfMatch := "E2QWRUHAPOMQZL",
               Origins :=
                 { Quantity := 1,
                   Items := [{ DomainName :=
                     "a.s3-website-eu-west-1.amazonaws.com-staging.s3-website-eu-west-1.amazonaws.com",
                               other := [] }] },
               other := [("CallerReference", "site")] },
           Op.deleteDir "a.s3-website-eu-west-1.amazonaws.com-staging",
           Op.deleteBucket "a.s3-website-eu-west-1.amazonaws.com-staging",
           Op.setTimeout 1000,
           Op.createInvalidation { DistributionId := .str "DIST123",
                                   CallerReference := "1500000000000",
                                   Quantity := 1, Items := ["/*"] }],
        outcome := .complete } := by
  decide

/-- C2, at a failing input.  The name `toString` is no key of the configured
environments, yet the `in` test finds it on `Object.prototype`: the run lists
the buckets, creates `proj-toString`, syncs and configures it, and fails only
at the fetch of the distribution. -/
theorem deploy_inherited_name_passes_check :
    "toString" ∉ JS.ownKeys exampleDefaults.environments ∧
    deploy exampleDefaults
        { calmWorld [] "proj-old.s3-website-eu-west-1.amazonaws.com" with
          getDistributionConfig := fun _ => .error sampleError }
        "toString" =
      { trace :=
          [Op.listBuckets,
           Op.createBucket "proj-toString",
           Op.uploadDir { localDir := "./dist/", deleteRemoved := true,
                          Bucket := "proj-toString", ACL := "public-read" },
           Op.putBucketWebsite { Bucket := "proj-toString",
                                 IndexDocumentSuffix := "index.html",
                                 ErrorDocumentKey := "error/index.html" },
           Op.getDistributionConfig (.builtin "toString")],
        outcome := .failed
          "cf.getDistributionConfig Error NetworkingError: socket hang up" } := by
  decide

/-- C3, counterexample.  A redeploy to the bucket
`a.s3-website-eu-west-1.amazonaws.com-staging`, which origin 0 already names:
the update succeeds and the run reaches the comparison; the previous name
derived from the origin is `a-staging.s3-website-eu-west-1.amazonaws.com`,
which differs from the bucket name, and no `destroyBucket` follows. -/
theorem destroy_iff_fails_on_suffixed_name :
    deploy suffixedDefaults
        (calmWorld ["a.s3-website-eu-west-1.amazonaws.com-staging"]
          "a.s3-website-eu-west-1.amazonaws.com-staging.s3-website-eu-west-1.amazonaws.com")
        "staging" =
      { trace :=
          [Op.listBuckets,
           Op.deleteDir "a.s3-website-eu-west-1.amazonaws.com-staging",
           Op.uploadDir { localDir := "./dist/", deleteRemoved := true,
                          Bucket := "a.s3-website-eu-west-1.amazonaws.com-staging",
                          ACL := "public-read" },
           Op.putBucketWebsite { Bucket := "a.s3-website-eu-west-1.amazonaws.com-staging",
                                 IndexDocumentSuffix := "index.html",
                                 ErrorDocumentKey := "error/index.html" },
           Op.getDistributionConfig (.str "DIST123"),
           Op.updateDistribution
             { Id := .str "DIST123", IfMatch := "E2QWRUHAPOMQZL",
               Origins :=
                 { Quantity := 1,
                   Items := [{ DomainName :=
                     "a.s3-website-eu-west-1.amazonaws.com-staging.s3-website-eu-west-1.amazonaws.com",
                               other := [] }] },
               other := [("CallerReference", "site")] },
           Op.setTimeout 1000,
           Op.createInvalidation { DistributionId := .str "DIST123",
                                   CallerReference := "1500000000000",
                                   Quantity := 1, Items := ["/*"] }],
        outcome := .complete } ∧
    JS.replace
        "a.s3-website-eu-west-1.amazonaws.com-staging.s3-website-eu-west-1.amazonaws.com"
        websiteSuffix "" =
      "a-staging.s3-website-eu-west-1.amazonaws.com" ∧
    ¬ ((afterUpdate
          (deploy suffixedDefaults
            (calmWorld ["a.s3-website-eu-west-1.amazonaws.com-staging"]
              "a.s3-website-eu-west-1.amazonaws.com-staging.s3-website-eu-west-1.amazonaws.com")
            "staging")).head? =
          some (Op.deleteDir "a-staging.s3-website-eu-west-1.amazonaws.com") ↔
        "a-staging.s3-website-eu-west-1.amazonaws.com" ≠
          "a.s3-website-eu-west-1.amazonaws.com-" ++ "staging") := by
  decide

/-- C3, amended.  In a run that reaches the comparison after a successful
`updateDistribution`, for a bucket name `prefix ++ environment` that holds no
occurrence of the website suffix: `destroyBucket(previous)` is what follows the
update if and only if `previous` differs from the bucket name, where `previous`
is the fetched origin 0 with the suffix stripped; `emptyBucket` is issued at
most once after the update and `deleteBucket` at most once in the run. -/
theorem destroy_iff_previous_differs (d : Defaults) (w : World) (environment pre : String)
    (data : DistributionData) (item0 : Origin) (items : List Origin) (p : UpdateParams)
    (hpre : d.bucket.bucketPrefix = .str pre)
    (hfree : ¬ websiteSuffix.data <:+: (pre ++ environment).data)
    (hget : w.getDistributionConfig (JS.get d.environments environment) = .ok data)
    (hitems : data.Origins.Items = item0 :: items)
    (hreach : Op.updateDistribution p ∈ (deploy d w environment).trace)
    (hok : w.updateDistribution p = none) :
    ((afterUpdate (deploy d w environment)).head? =
        some (Op.deleteDir (JS.replace item0.DomainName websiteSuffix "")) ↔
      JS.replace item0.DomainName websiteSuffix "" ≠ pre ++ environment) ∧
    (afterUpdate (deploy d w environment)).countP Op.isDeleteDir ≤ 1 ∧
    (deploy d w environment).trace.countP Op.isDeleteBucket ≤ 1 := by
  have hcur := replace_append_suffix (pre ++ environment) hfree
  by_cases hin : JS.hasProperty environment d.environments = true
  · simp only [afterUpdate, deploy, hin, Bool.not_true,
      Bool.false_eq_true, if_false, hpre, JS.concat, JS.Scalar.toStr, listBuckets,
      JS.indexOf_ne_neg_one_iff, emptyBucket, createBucket,
      process, uploadToBucket, makeBucketWebsite,
      updateCloudFrontOrigin, hget, hitems, hcur,
      destroyBucket, deleteBucket, invalidate, error,
      Run.after, websiteSuffix] at hreach ⊢
    repeat' split
    all_goals simp_all [List.dropWhile, Op.isUpdateDistribution, Op.isDeleteDir,
      Op.isDeleteBucket, List.countP_cons]
    all_goals exact fun hc => absurd hc.symm (by assumption)
  · simp [deploy, hin, error] at hreach

/-- C3, witness: a first deploy of `proj-staging` over the previous bucket
`proj-old`, which is destroyed once. -/
theorem destroy_iff_previous_differs_witness :
    exampleDefaults.bucket.bucketPrefix = .str "proj-" ∧
    ¬ websiteSuffix.data <:+: ("proj-" ++ "staging").data ∧
    ((afterUpdate (deploy exampleDefaults
          (calmWorld [] "proj-old.s3-website-eu-west-1.amazonaws.com") "staging")).head? =
        some (Op.deleteDir
          (JS.replace "proj-old.s3-website-eu-west-1.amazonaws.com" websiteSuffix "")) ↔
      JS.replace "proj-old.s3-website-eu-west-1.amazonaws.com" websiteSuffix "" ≠
        "proj-" ++ "staging") ∧
    (afterUpdate (deploy exampleDefaults
        (calmWorld [] "proj-old.s3-website-eu-west-1.amazonaws.com") "staging")).countP
      Op.isDeleteDir ≤ 1 ∧
    (deploy exampleDefaults
        (calmWorld [] "proj-old.s3-website-eu-west-1.amazonaws.com") "staging").trace.countP
      Op.isDeleteBucket ≤ 1 :=
  ⟨rfl, by decide,
    destroy_iff_previous_differs exampleDefaults
      (calmWorld [] "proj-old.s3-website-eu-west-1.amazonaws.com") "staging" "proj-"
      { ETag := "E2QWRUHAPOMQZL",
        Origins := { Quantity := 1,
                     Items := [{ DomainName := "proj-old.s3-website-eu-west-1.amazonaws.com",
                                 other := [] }] },
        other := [("CallerReference", "site")] }
      { DomainName := "proj-old.s3-website-eu-west-1.amazonaws.com", other := [] } []
      { Id := .str "DIST123", IfMatch := "E2QWRUHAPOMQZL",
        Origins := { Quantity := 1,
                     Items := [{ DomainName := "proj-staging.s3-website-eu-west-1.amazonaws.com",
                                 other := [] }] },
        other := [("CallerReference", "site")] }
      rfl (by decide) rfl rfl (by decide) rfl⟩

/-- C4.  For a known environment and every list of buckets the storage service
answers, the operations issued before the sync are the listing followed by
exactly one provisioning call on `prefix ++ environment`: `emptyBucket` when
the name is listed, `createBucket` otherwise; and in the whole run
`createBucket` is issued once when the name is not listed and never when it
is. -/
theorem provision_empties_or_creates (d : Defaults) (w : World) (environment pre : String)
    (buckets : List BucketEntry)
    (hknown : environment ∈ JS.ownKeys d.environments)
    (hpre : d.bucket.bucketPrefix = .str pre)
    (hlist : w.listBuckets = .ok buckets) :
    provisionSegment (deploy d w environment) =
      [Op.listBuckets,
       if pre ++ environment ∈ buckets.map BucketEntry.Name
         then Op.deleteDir (pre ++ environment)
         else Op.createBucket (pre ++ environment)] ∧
    (deploy d w environment).trace.countP Op.isCreateBucket =
      if pre ++ environment ∈ buckets.map BucketEntry.Name then 0 else 1 := by
  constructor
  · simp only [provisionSegment, deploy, JS.hasProperty, hknown, decide_True, Bool.true_or,
      Bool.not_true, Bool.false_eq_true, if_false, hpre, JS.concat, JS.Scalar.toStr, listBuckets,
      hlist, JS.indexOf_ne_neg_one_iff, emptyBucket, createBucket, process, uploadToBucket,
      Run.after]
    split
    · cases w.deleteDir (pre ++ environment) <;>
        simp [List.takeWhile, Op.isUploadDir]
    · cases h : w.createBucket (pre ++ environment) <;>
        simp [List.takeWhile, Op.isUploadDir, error]
  · simp only [deploy, JS.hasProperty, hknown, decide_True, Bool.true_or,
      Bool.not_true, Bool.false_eq_true, if_false, hpre, JS.concat, JS.Scalar.toStr, listBuckets,
      hlist, JS.indexOf_ne_neg_one_iff, emptyBucket, createBucket,
      process, uploadToBucket, makeBucketWebsite,
      updateCloudFrontOrigin,
      destroyBucket, deleteBucket, invalidate, error,
      Run.after, websiteSuffix]
    generalize JS.get d.environments environment = id
    repeat' split
    all_goals simp_all [List.countP_cons, Op.isCreateBucket]

/-- C4, witness: the bucket `proj-staging` is listed, so it is emptied and no
bucket is created. -/
theorem provision_empties_or_creates_witness :
    "staging" ∈ JS.ownKeys exampleDefaults.environments ∧
    exampleDefaults.bucket.bucketPrefix = .str "proj-" ∧
    (calmWorld ["proj-other", "proj-staging"] "x").listBuckets =
      .ok [{ Name := "proj-other", CreationDate := "2017-01-01" },
           { Name := "proj-staging", CreationDate := "2017-01-01" }] ∧
    provisionSegment
        (deploy exampleDefaults (calmWorld ["proj-other", "proj-staging"] "x") "staging") =
      [Op.listBuckets,
       if "proj-" ++ "staging" ∈
            List.map BucketEntry.Name
              [{ Name := "proj-other", CreationDate := "2017-01-01" },
               { Name := "proj-staging", CreationDate := "2017-01-01" }]
         then Op.deleteDir ("proj-" ++ "staging")
         else Op.createBucket ("proj-" ++ "staging")] ∧
    (deploy exampleDefaults
        (calmWorld ["proj-other", "proj-staging"] "x") "staging").trace.countP
        Op.isCreateBucket =
      if "proj-" ++ "staging" ∈
            List.map BucketEntry.Name
              [{ Name := "proj-other", CreationDate := "2017-01-01" },
               { Name := "proj-staging", CreationDate := "2017-01-01" }]
        then 0 else 1 :=
  ⟨by decide, rfl, rfl,
    provision_empties_or_creates exampleDefaults
      (calmWorld ["proj-other", "proj-staging"] "x") "staging" "proj-" _
      (by decide) rfl rfl⟩

/-- C5.  In every run that fetches the configuration of the environment's
distribution, for every configuration and ETag the fetch answers: the run
hands `updateDistribution` one request, with the same distribution id, the
fetched ETag as `IfMatch`, origin 0 renamed to `prefix ++ environment` followed
by the website suffix, and every other origin and field as fetched; no other
update request is issued. -/
theorem update_request_frame (d : Defaults) (w : World) (environment pre id : String)
    (data : DistributionData) (item0 : Origin) (items : List Origin)
    (hpre : d.bucket.bucketPrefix = .str pre)
    (hid : d.environments.lookup environment = some id)
    (hget : w.getDistributionConfig (.str id) = .ok data)
    (hitems : data.Origins.Items = item0 :: items)
    (hfetch : Op.getDistributionConfig (.str id) ∈ (deploy d w environment).trace) :
    Op.updateDistribution
        { Id := .str id, IfMatch := data.ETag,
          Origins := { Quantity := data.Origins.Quantity,
                       Items := { DomainName := pre ++ environment ++ websiteSuffix,
                                  other := item0.other } :: items },
          other := data.other } ∈ (deploy d w environment).trace ∧
      ∀ p, Op.updateDistribution p ∈ (deploy d w environment).trace →
        p = { Id := .str id, IfMatch := data.ETag,
              Origins := { Quantity := data.Origins.Quantity,
                           Items := { DomainName := pre ++ environment ++ websiteSuffix,
                                      other := item0.other } :: items },
              other := data.other } := by
  have hmem : environment ∈ JS.ownKeys d.environments :=
    JS.mem_ownKeys_of_lookup _ _ _ hid
  have hg : JS.get d.environments environment = .str id := by
    simp [JS.get, hid]
  simp only [deploy, JS.hasProperty, hmem, decide_True, Bool.true_or, Bool.not_true,
    Bool.false_eq_true, if_false, hpre, JS.concat, JS.Scalar.toStr, listBuckets,
    JS.indexOf_ne_neg_one_iff, emptyBucket, createBucket,
    process, uploadToBucket, makeBucketWebsite,
    updateCloudFrontOrigin, hg, hget, hitems,
    destroyBucket, deleteBucket, invalidate, error,
    Run.after, websiteSuffix] at hfetch ⊢
  repeat' split
  all_goals simp_all

/-- C5, witness: a distribution with two origins and further fields; the
update request changes the domain name of origin 0 only. -/
theorem update_request_frame_witness :
    exampleDefaults.bucket.bucketPrefix = .str "proj-" ∧
    exampleDefaults.environments.lookup "staging" = some "DIST123" ∧
    Op.updateDistribution
        { Id := .str "DIST123", IfMatch := "E3",
          Origins := { Quantity := 2,
                       Items := [{ DomainName := "proj-" ++ "staging" ++ websiteSuffix,
                                   other := [("Id", "site")] },
                                 { DomainName := "api.example.com",
                                   other := [("Id", "api")] }] },
          other := [("Comment", "site"), ("Enabled", "true")] } ∈
      (deploy exampleDefaults
        { calmWorld [] "x" with
          getDistributionConfig := fun _ =>
            .ok { ETag := "E3",
                  Origins := { Quantity := 2,
                               Items := [{ DomainName := "old.example.com",
                                           other := [("Id", "site")] },
                                         { DomainName := "api.example.com",
                                           other := [("Id", "api")] }] },
                  other := [("Comment", "site"), ("Enabled", "true")] } }
        "staging").trace :=
  ⟨rfl, rfl,
    (update_request_frame exampleDefaults
      { calmWorld [] "x" with
        getDistributionConfig := fun _ =>
          .ok { ETag := "E3",
                Origins := { Quantity := 2,
                             Items := [{ DomainName := "old.example.com",
                                         other := [("Id", "site")] },
                                       { DomainName := "api.example.com",
                                         other := [("Id", "api")] }] },
                other := [("Comment", "site"), ("Enabled", "true")] } }
      "staging" "proj-" "DIST123"
      { ETag := "E3",
        Origins := { Quantity := 2,
                     Items := [{ DomainName := "old.example.com", other := [("Id", "site")] },
                               { DomainName := "api.example.com", other := [("Id", "api")] }] },
        other := [("Comment", "site"), ("Enabled", "true")] }
      { DomainName := "old.example.com", other := [("Id", "site")] }
      [{ DomainName := "api.example.com", other := [("Id", "api")] }]
      rfl rfl rfl rfl (by decide)).1⟩

/-- C6, counterexample.  Two runs in which every operation succeeds, for the
bucket `a.s3-website-eu-west-1.amazonaws.com-staging`.  In the first the
previous bucket derived from origin 0 is the new bucket itself, and after the
update the run still empties and deletes it.  In the second the previous
bucket derived from origin 0 differs from the new bucket, and no bucket is
emptied or deleted. -/
theorem success_trace_destroy_mismatch :
    (calmWorld []
        "a.s3-website-eu-west-1.amazonaws.com.s3-website-eu-west-1.amazonaws.com-staging").AllSucceed
      [] (.str "DIST123")
      { ETag := "E2QWRUHAPOMQZL",
        Origins := { Quantity := 1,
                     Items := [{ DomainName :=
                       "a.s3-website-eu-west-1.amazonaws.com.s3-website-eu-west-1.amazonaws.com-staging",
                                 other := [] }] },
        other := [("CallerReference", "site")] } ∧
    JS.replace
        "a.s3-website-eu-west-1.amazonaws.com.s3-website-eu-west-1.amazonaws.com-staging"
        websiteSuffix "" =
      "a.s3-website-eu-west-1.amazonaws.com-" ++ "staging" ∧
    afterUpdate
        (deploy suffixedDefaults
          (calmWorld []
            "a.s3-website-eu-west-1.amazonaws.com.s3-website-eu-west-1.amazonaws.com-staging")
          "staging") =
      [Op.deleteDir "a.s3-website-eu-west-1.amazonaws.com-staging",
       Op.deleteBucket "a.s3-website-eu-west-1.amazonaws.com-staging",
       Op.setTimeout 1000,
       Op.createInvalidation { DistributionId := .str "DIST123",
                               CallerReference := "1500000000000",
                               Quantity := 1, Items := ["/*"] }] ∧
    JS.replace
        "a.s3-website-eu-west-1.amazonaws.com-staging.s3-website-eu-west-1.amazonaws.com"
        websiteSuffix "" ≠
      "a.s3-website-eu-west-1.amazonaws.com-" ++ "staging" ∧
    afterUpdate
        (deploy suffixedDefaults
          (calmWorld ["a.s3-website-eu-west-1.amazonaws.com-staging"]
            "a.s3-website-eu-west-1.amazonaws.com-staging.s3-website-eu-west-1.amazonaws.com")
          "staging") =
      [Op.setTimeout 1000,
       Op.createInvalidation { DistributionId := .str "DIST123",
                               CallerReference := "1500000000000",
                               Quantity := 1, Items := ["/*"] }] :=
  ⟨⟨rfl, fun _ => rfl, fun _ => rfl, fun _ => rfl, fun _ => rfl, fun _ => rfl, rfl,
      fun _ => rfl, fun _ => rfl⟩,
    by decide, by decide, by decide, by decide⟩

/-- C6, amended.  When every remote operation succeeds and the bucket name
`prefix ++ environment` holds no occurrence of the website suffix, the run
completes and its operations are exactly: `listBuckets`; `emptyBucket` or
`createBucket` on the new bucket; the directory sync; the website
configuration; `getDistributionConfig`; `updateDistribution`; then, exactly
when the previous bucket (the fetched origin 0 with the suffix stripped)
differs from `prefix ++ environment`, `emptyBucket` and `deleteBucket` of the
previous bucket; the settle wait of 1000 ms; one `createInvalidation` for the
environment's distribution id with the paths `/*`. -/
theorem deploy_success_trace (d : Defaults) (w : World) (environment pre id : String)
    (buckets : List BucketEntry) (data : DistributionData) (item0 : Origin)
    (items : List Origin)
    (hpre : d.bucket.bucketPrefix = .str pre)
    (hfree : ¬ websiteSuffix.data <:+: (pre ++ environment).data)
    (hid : d.environments.lookup environment = some id)
    (hitems : data.Origins.Items = item0 :: items)
    (hw : w.AllSucceed buckets (.str id) data) :
    deploy d w environment =
      { trace :=
          [Op.listBuckets,
           if pre ++ environment ∈ buckets.map BucketEntry.Name
             then Op.deleteDir (pre ++ environment)
             else Op.createBucket (pre ++ environment),
           Op.uploadDir { localDir := d.bucket.localDir, deleteRemoved := true,
                          Bucket := pre ++ environment, ACL := "public-read" },
           Op.putBucketWebsite { Bucket := pre ++ environment,
                                 IndexDocumentSuffix := d.website.index,
                                 ErrorDocumentKey := d.website.error },
           Op.getDistributionConfig (.str id),
           Op.updateDistribution
             { Id := .str id, IfMatch := data.ETag,
               Origins := { Quantity := data.Origins.Quantity,
                            Items := { DomainName := pre ++ environment ++ websiteSuffix,
                                       other := item0.other } :: items },
               other := data.other }]
          ++ (if JS.replace item0.DomainName websiteSuffix "" ≠ pre ++ environment
              then [Op.deleteDir (JS.replace item0.DomainName websiteSuffix ""),
                    Op.deleteBucket (JS.replace item0.DomainName websiteSuffix "")]
              else [])
          ++ [Op.setTimeout 1000,
              Op.createInvalidation { DistributionId := .str id,
                                      CallerReference := toString w.now,
                                      Quantity := 1, Items := ["/*"] }],
        outcome := .complete } := by
  have hcur : JS.replace (pre ++ environment ++ websiteSuffix) websiteSuffix "" =
      pre ++ environment := replace_append_suffix (pre ++ environment) hfree
  rw [deploy_success_run d w environment pre id buckets data item0 items hpre hid hitems hw,
    hcur]
  by_cases h : JS.replace item0.DomainName websiteSuffix "" = pre ++ environment
  · simp [h]
  · have h2 : ¬ pre ++ environment = JS.replace item0.DomainName websiteSuffix "" :=
      fun e => h e.symm
    simp [h, h2]

/-- C6, witness: a deploy of `proj-staging` over the previous bucket `proj-old`,
which is emptied and deleted after the update, and the redeploy of scenario B,
where origin 0 already names `proj-staging` and no bucket is destroyed. -/
theorem deploy_success_trace_witness :
    exampleDefaults.bucket.bucketPrefix = .str "proj-" ∧
    ¬ websiteSuffix.data <:+: ("proj-" ++ "staging").data ∧
    exampleDefaults.environments.lookup "staging" = some "DIST123" ∧
    (calmWorld [] "proj-old.s3-website-eu-west-1.amazonaws.com").AllSucceed
      [] (.str "DIST123")
      { ETag := "E2QWRUHAPOMQZL",
        Origins := { Quantity := 1,
                     Items := [{ DomainName := "proj-old.s3-website-eu-west-1.amazonaws.com",
                                 other := [] }] },
        other := [("CallerReference", "site")] } ∧
    deploy exampleDefaults
        (calmWorld [] "proj-old.s3-website-eu-west-1.amazonaws.com") "staging" =
      { trace :=
          [Op.listBuckets,
           Op.createBucket "proj-staging",
           Op.uploadDir { localDir := "./dist/", deleteRemoved := true,
                          Bucket := "proj-staging", ACL := "public-read" },
           Op.putBucketWebsite { Bucket := "proj-staging",
                                 IndexDocumentSuffix := "index.html",
                                 ErrorDocumentKey := "error/index.html" },
           Op.getDistributionConfig (.str "DIST123"),
           Op.updateDistribution
             { Id := .str "DIST123", IfMatch := "E2QWRUHAPOMQZL",
               Origins :=
                 { Quantity := 1,
                   Items := [{ DomainName := "proj-staging.s3-website-eu-west-1.amazonaws.com",
                               other := [] }] },
               other := [("CallerReference", "site")] },
           Op.deleteDir "proj-old",
           Op.deleteBucket "proj-old",
           Op.setTimeout 1000,
           Op.createInvalidation { DistributionId := .str "DIST123",
                                   CallerReference := "1500000000000",
                                   Quantity := 1, Items := ["/*"] }],
        outcome := .complete } ∧
    deploy exampleDefaults
        (calmWorld ["proj-staging"] "proj-staging.s3-website-eu-west-1.amazonaws.com")
        "staging" =
      { trace :=
          [Op.listBuckets,
           Op.deleteDir "proj-staging",
           Op.uploadDir { localDir := "./dist/", deleteRemoved := true,
                          Bucket := "proj-staging", ACL := "public-read" },
           Op.putBucketWebsite { Bucket := "proj-staging",
                                 IndexDocumentSuffix := "index.html",
                                 ErrorDocumentKey := "error/index.html" },
           Op.getDistributionConfig (.str "DIST123"),
           Op.updateDistribution
             { Id := .str "DIST123", IfMatch := "E2QWRUHAPOMQZL",
               Origins :=
                 { Quantity := 1,
                   Items := [{ DomainName := "proj-staging.s3-website-eu-west-1.amazonaws.com",
                               other := [] }] },
               other := [("CallerReference", "site")] },
           Op.setTimeout 1000,
           Op.createInvalidation { DistributionId := .str "DIST123",
                                   CallerReference := "1500000000000",
                                   Quantity := 1, Items := ["/*"] }],
        outcome := .complete } :=
  ⟨rfl, by decide, rfl,
    ⟨rfl, fun _ => rfl, fun _ => rfl, fun _ => rfl, fun _ => rfl, fun _ => rfl, rfl,
      fun _ => rfl, fun _ => rfl⟩,
    (deploy_success_trace exampleDefaults
      (calmWorld [] "proj-old.s3-website-eu-west-1.amazonaws.com")
      "staging" "proj-" "DIST123" _ _
      { DomainName := "proj-old.s3-website-eu-west-1.amazonaws.com", other := [] } []
      rfl (by decide) rfl rfl
      ⟨rfl, fun _ => rfl, fun _ => rfl, fun _ => rfl, fun _ => rfl, fun _ => rfl, rfl,
        fun _ => rfl, fun _ => rfl⟩).trans (by decide),
    (deploy_success_trace exampleDefaults
      (calmWorld ["proj-staging"] "proj-staging.s3-website-eu-west-1.amazonaws.com")
      "staging" "proj-" "DIST123" _ _
      { DomainName := "proj-staging.s3-website-eu-west-1.amazonaws.com", other := [] } []
      rfl (by decide) rfl rfl
      ⟨rfl, fun _ => rfl, fun _ => rfl, fun _ => rfl, fun _ => rfl, fun _ => rfl, rfl,
        fun _ => rfl, fun _ => rfl⟩).trans (by decide)⟩

/-- C7, at a failing input.  The bucket `proj-staging` exists and the deleter
of `emptyBucket` emits an error: `emptyBucket` registers no `'error'` listener,
so the run stops after `client.deleteDir` without a call of `error`; its
outcome is no `failed` state. -/
theorem emptyBucket_error_is_unhandled :
    deploy exampleDefaults
        { calmWorld ["proj-staging"] "proj-old.s3-website-eu-west-1.amazonaws.com" with
          deleteDir := fun _ => some sampleError }
        "staging" =
      { trace := [Op.listBuckets, Op.deleteDir "proj-staging"],
        outcome := .unhandled sampleError } ∧
    ∀ m, (deploy exampleDefaults
        { calmWorld ["proj-staging"] "proj-old.s3-website-eu-west-1.amazonaws.com" with
          deleteDir := fun _ => some sampleError }
        "staging").outcome ≠ .failed m := by
  refine ⟨by decide, fun m h => ?_⟩
  have h2 : (deploy exampleDefaults
        { calmWorld ["proj-staging"] "proj-old.s3-website-eu-west-1.amazonaws.com" with
          deleteDir := fun _ => some sampleError }
        "staging").outcome = .unhandled sampleError := by decide
  rw [h2] at h
  cases h

/-- C8, counterexample.  A configuration with the empty string as prefix is
accepted by `config`, and the prefix it leaves for the deploys is empty: the
deploy of `staging` creates the bucket `staging`.  A configuration whose
prefix is `undefined` is accepted as well, and the deploy creates the bucket
`undefinedstaging`. -/
theorem config_accepts_empty_string :
    config defaults
        { bucket := some { localDir := none, bucketPrefix := some (.str "") },
          website := none,
          environments := some [("staging", "DIST123")] } =
      .ok { bucket := { localDir := "./dist/", bucketPrefix := .str "" },
            website := { index := "index.html", error := "error/index.html" },
            environments := [("staging", "DIST123")] } ∧
    (deploy { bucket := { localDir := "./dist/", bucketPrefix := .str "" },
              website := { index := "index.html", error := "error/index.html" },
              environments := [("staging", "DIST123")] }
        (calmWorld [] "proj-old.s3-website-eu-west-1.amazonaws.com") "staging").trace.take 2 =
      [Op.listBuckets, Op.createBucket "staging"] ∧
    config defaults
        { bucket := some { localDir := none, bucketPrefix := some .undefined },
          website := none,
          environments := some [("staging", "DIST123")] } =
      .ok { bucket := { localDir := "./dist/", bucketPrefix := .undefined },
            website := { index := "index.html", error := "error/index.html" },
            environments := [("staging", "DIST123")] } ∧
    (deploy { bucket := { localDir := "./dist/", bucketPrefix := .undefined },
              website := { index := "index.html", error := "error/index.html" },
              environments := [("staging", "DIST123")] }
        (calmWorld [] "proj-old.s3-website-eu-west-1.amazonaws.com") "staging").trace.take 2 =
      [Op.listBuckets, Op.createBucket "undefinedstaging"] :=
  ⟨rfl, by decide, rfl, by decide⟩

/-- C8, amended.  `config` rejects exactly the configurations that leave the
prefix `null` after the merge.  When `config` completes, the prefix it leaves
for the deploys is not `null`: it is the value of the property `prefix` of the
configuration when that property is present, whatever the value (a string,
the empty string, `undefined` or another value), and the prefix held before
otherwise.  On `defaults` whose prefix is `null`, a configuration that leaves
the property out or gives `null` is rejected with the missing-prefix
message. -/
theorem config_rejects_null (d : Defaults) (cfg : Cfg) :
    (∀ d', config d cfg = .ok d' →
      d'.bucket.bucketPrefix ≠ .null ∧
      d'.bucket.bucketPrefix = (cfg.suppliedPrefix).getD d.bucket.bucketPrefix) ∧
    (∀ v, cfg.suppliedPrefix = some v → v ≠ .null →
      ∃ d', config d cfg = .ok d' ∧ d'.bucket.bucketPrefix = v) ∧
    (d.bucket.bucketPrefix = .null →
      cfg.suppliedPrefix = none ∨ cfg.suppliedPrefix = some .null →
      config d cfg = .error missingPrefixMessage) := by
  have hm : (merge d cfg).bucket.bucketPrefix =
      (cfg.suppliedPrefix).getD d.bucket.bucketPrefix := by
    unfold merge Cfg.suppliedPrefix
    rcases cfg.bucket with _ | b
    · cases cfg.website <;> cases cfg.environments <;> rfl
    · cases cfg.website <;> cases cfg.environments <;> rfl
  refine ⟨?_, ?_, ?_⟩
  · intro d' h
    unfold config at h
    simp only at h
    split at h
    · cases h
    · rename_i hne
      injection h with h
      subst h
      exact ⟨hne, hm⟩
  · intro v hv hne
    refine ⟨merge d cfg, ?_, ?_⟩
    · have h1 : (merge d cfg).bucket.bucketPrefix ≠ .null := by
        rw [hm, hv]; exact hne
      simp [config, h1]
    · rw [hm, hv]; rfl
  · intro hd hc
    have h1 : (merge d cfg).bucket.bucketPrefix = .null := by
      rw [hm]
      rcases hc with hc | hc
      · rw [hc]; exact hd
      · rw [hc]; rfl
    simp [config, h1]

/-- C8, witness: the configuration with the prefix `proj-` is accepted and
leaves that prefix; the empty configuration and the one with the prefix `null`
are rejected. -/
theorem config_rejects_null_witness :
    config defaults
        { bucket := some { localDir := none, bucketPrefix := some (.str "proj-") },
          website := none,
          environments := some [("staging", "DIST123")] } = .ok exampleDefaults ∧
    (exampleDefaults.bucket.bucketPrefix ≠ .null ∧
      exampleDefaults.bucket.bucketPrefix =
        (Cfg.suppliedPrefix
          { bucket := some { localDir := none, bucketPrefix := some (.str "proj-") },
            website := none,
            environments := some [("staging", "DIST123")] }).getD
          defaults.bucket.bucketPrefix) ∧
    defaults.bucket.bucketPrefix = .null ∧
    config defaults { bucket := none, website := none, environments := none } =
      .error missingPrefixMessage ∧
    config defaults
        { bucket := some { localDir := none, bucketPrefix := some .null },
          website := none, environments := none } =
      .error missingPrefixMessage :=
  ⟨rfl,
   (config_rejects_null defaults
      { bucket := some { localDir := none, bucketPrefix := some (.str "proj-") },
        website := none,
        environments := some [("staging", "DIST123")] }).1 exampleDefaults rfl,
   rfl,
   (config_rejects_null defaults
      { bucket := none, website := none, environments := none }).2.2 rfl (Or.inl rfl),
   (config_rejects_null defaults
      { bucket := some { localDir := none, bucketPrefix := some .null },
        website := none, environments := none }).2.2 rfl (Or.inr rfl)⟩

/-- C9, counterexample.  For the bucket name
`a.s3-website-eu-west-1.amazonaws.com-staging`, stripping the suffix from the
site domain removes the occurrence inside the name and returns
`a-staging.s3-website-eu-west-1.amazonaws.com`, not the bucket name. -/
theorem strip_site_domain_loses_suffixed_name :
    JS.replace
        ("a.s3-website-eu-west-1.amazonaws.com-staging" ++ ".s3-website-eu-west-1.amazonaws.com")
        ".s3-website-eu-west-1.amazonaws.com" "" =
      "a-staging.s3-website-eu-west-1.amazonaws.com" ∧
    JS.replace
        ("a.s3-website-eu-west-1.amazonaws.com-staging" ++ ".s3-website-eu-west-1.amazonaws.com")
        ".s3-website-eu-west-1.amazonaws.com" "" ≠
      "a.s3-website-eu-west-1.amazonaws.com-staging" := by
  decide

/-- C9, amended.  For every bucket name `b` that holds no occurrence of the
website suffix, replacing the first occurrence of the suffix in
`b ++ ".s3-website-eu-west-1.amazonaws.com"` by the empty string returns
exactly `b`. -/
theorem strip_site_domain_inverse (b : String)
    (hfree : ¬ websiteSuffix.data <:+: b.data) :
    JS.replace (b ++ ".s3-website-eu-west-1.amazonaws.com")
      ".s3-website-eu-west-1.amazonaws.com" "" = b :=
  replace_append_suffix b hfree

/-- C9, witness: the bucket name `proj-staging`. -/
theorem strip_site_domain_inverse_witness :
    ¬ websiteSuffix.data <:+: "proj-staging".data ∧
    JS.replace ("proj-staging" ++ ".s3-website-eu-west-1.amazonaws.com")
      ".s3-website-eu-west-1.amazonaws.com" "" = "proj-staging" :=
  ⟨by decide, strip_site_domain_inverse "proj-staging" (by decide)⟩

/-- C10, at a failing input.  The directory sync fails with an error: the call
`error('unable to sync:', error.stack)` hands the cause as a second argument,
which `error` drops, so the reported message is `unable to sync:` and holds
neither the message of the error nor its stack. -/
theorem sync_failure_message_drops_cause :
    deploy exampleDefaults
        { calmWorld [] "proj-old.s3-website-eu-west-1.amazonaws.com" with
          uploadDir := fun _ => some sampleError }
        "staging" =
      { trace :=
          [Op.listBuckets,
           Op.createBucket "proj-staging",
           Op.uploadDir { localDir := "./dist/", deleteRemoved := true,
                          Bucket := "proj-staging", ACL := "public-read" }],
        outcome := .failed "unable to sync:" } ∧
    ¬ sampleError.message.data <:+: "unable to sync:".data ∧
    ¬ sampleError.stack.data <:+: "unable to sync:".data := by
  decide

end Aeonian
